import Mathlib

/-!
Verification of the hybrid retrieval-and-rerank engine of the nail-art
similarity-search repository.

The embedding below translates the Python modules
`backend/color_similarity.py`, `backend/search_config.py`,
`backend/pinecone_client.py` and `backend/enhanced_search.py` into Lean.
Numeric values carried by the code (scores, weights, histogram entries,
thresholds) are modelled as rationals where the code only moves them
around and compares them (every IEEE double is a rational), and as real
numbers where the code applies transcendental functions
(`np.sqrt`, `np.log`, `np.exp`).  External collaborators (image decoding,
the CLIP model, the Pinecone backend, the Supabase store, the `json`
library) are oracles passed in as parameters; everything written in the
repository itself is translated line by line.
-/

/-! ### color_similarity.py -/

/-- The body of the `try` block of `calculate_bhattacharyya_distance`
(color_similarity.py lines 78-97): raise on shape mismatch, otherwise
compute the clipped, normalized Bhattacharyya distance.  Histograms are
flattened one-dimensional arrays, so shape equality is length equality. -/
noncomputable def bhattacharyyaBody (hist1 hist2 : List ℝ) : Except String ℝ :=
  if hist1.length ≠ hist2.length then
    Except.error ("Histogram shapes do not match")
  else
    -- BC = sum(sqrt(h1 * h2)), elementwise on equal-shape arrays
    let coeff := (List.zipWith (fun a b => Real.sqrt (a * b)) hist1 hist2).sum
    -- np.clip(coeff, 1e-10, 1.0)
    let clipped := max (1 / 10 ^ 10) (min coeff 1)
    let dist := -Real.log clipped
    let maxDist := -Real.log (1 / 10 ^ 10)
    Except.ok (min (dist / maxDist) 1)

/-- Python `calculate_bhattacharyya_distance` (color_similarity.py lines 67-101).
The function wraps its whole body in `try/except Exception` and returns
1.0 from the handler, so the `ValueError` raised on shape mismatch is
caught by the function itself and the caller always receives a float. -/
noncomputable def calculate_bhattacharyya_distance (hist1 hist2 : List ℝ) : ℝ :=
  match bhattacharyyaBody hist1 hist2 with
  | Except.ok d => d
  | Except.error _ => 1

/-- Python `bhattacharyya_to_similarity` (color_similarity.py lines 103-123):
`sigmoid(a * (1 - distance) + b)`.  Over the reals the body never raises,
so the `except` branch returning 0.0 is dead. -/
noncomputable def bhattacharyya_to_similarity (distance a b : ℝ) : ℝ :=
  1 / (1 + Real.exp (-(a * (1 - distance) + b)))

/-- Python `histogram_to_json` (color_similarity.py lines 125-139): serialize via
`json.dumps(histogram.tolist())`.  The `json` library is external, so the
serializer is a parameter; `json.dumps` never fails on a list of finite
floats, so the `except` branch returning the literal string of an empty
array is dead. -/
def histogram_to_json (dumps : List ℚ → String) (histogram : List ℚ) : String :=
  dumps histogram

/-- Python `histogram_from_json` (color_similarity.py lines 141-158): an empty or
literally-empty-array string is mapped to `None` before any parsing; the
parser (`json.loads` plus the float32 cast) is the external parameter
`loads`, whose own failure is also `None`. -/
def histogram_from_json (loads : String → Option (List ℚ)) (json_str : String) :
    Option (List ℚ) :=
  if json_str = "" ∨ json_str = "[]" then none else loads json_str

/-- Python `calculate_color_similarity` (color_similarity.py lines 160-189):
deserialize both histograms, return 0.0 if either is `None`, otherwise
distance then sigmoid similarity.  Stored float32 entries are rationals
and are cast into the real-valued distance computation. -/
noncomputable def calculate_color_similarity (loads : String → Option (List ℚ))
    (hist1_json hist2_json : String) (a b : ℚ) : ℝ :=
  match histogram_from_json loads hist1_json, histogram_from_json loads hist2_json with
  | some h1, some h2 =>
      bhattacharyya_to_similarity
        (calculate_bhattacharyya_distance (h1.map (fun q => (q : ℝ))) (h2.map (fun q => (q : ℝ))))
        (a : ℝ) (b : ℝ)
  | _, _ => 0

/-! ### search_config.py -/

/-- The `SearchConfig` dataclass fields (search_config.py lines 13-29).
The integer fields are Python ints, the float fields are IEEE doubles,
hence rationals. -/
structure SearchConfig where
  vector_top_k : ℤ := 20
  final_top_k : ℤ := 10
  similarity_threshold : ℚ := 7 / 10
  histogram_bins : ℤ := 8
  bhattacharyya_a : ℚ := 6
  bhattacharyya_b : ℚ := -3
  vector_weight : ℚ := 7 / 10
  color_weight : ℚ := 3 / 10

/-- Python `SearchConfig.__post_init__` (search_config.py lines 32-41), run at
construction: the weight-sum check only logs a warning (collected in the
first component), then a `ValueError` is raised when
`vector_top_k < final_top_k` and when `histogram_bins <= 0`.  The warning
is emitted before either raise, exactly as the Python statements are
ordered. -/
def SearchConfig.postInit (c : SearchConfig) : List String × Except String SearchConfig :=
  let warnings :=
    if c.vector_weight + c.color_weight ≠ 1 then
      [("Weights do not sum to 1.0")] else []
  if c.vector_top_k < c.final_top_k then
    (warnings, Except.error ("vector_top_k must be >= final_top_k"))
  else if c.histogram_bins ≤ 0 then
    (warnings, Except.error ("histogram_bins must be positive"))
  else
    (warnings, Except.ok c)

example :
    (SearchConfig.postInit
      { vector_top_k := 5, final_top_k := 10 }).2.isOk = false := by decide

example :
    (SearchConfig.postInit
      { vector_weight := 1 / 2, color_weight := 1 / 2 }).2.isOk = true := by decide

/-! ### pinecone_client.py -/

/-- Metadata attached to a stored vector; `search_similar` only ever reads
`metadata.get("filename", "")`, so the model keeps the one key the core
consumes. -/
structure MatchMeta where
  filename : Option String
deriving DecidableEq

/-- One element of `results.matches` as processed by `search_similar`
(pinecone_client.py lines 121-126): id, cosine score and metadata.
Scores delivered by the backend are IEEE floats, hence rationals. -/
structure Match where
  id : String
  score : ℚ
  metadata : MatchMeta
deriving DecidableEq

/-- Descending-score ordering used by the final
`processed_results.sort(key=..., reverse=True)`. -/
def scoreGE (a b : Match) : Prop := b.score ≤ a.score

instance : DecidableRel scoreGE := fun a b => inferInstanceAs (Decidable (b.score ≤ a.score))

instance : IsTotal Match scoreGE := ⟨fun a b => le_total b.score a.score⟩

instance : IsTrans Match scoreGE := ⟨fun _ _ _ h1 h2 => le_trans h2 h1⟩

/-- The `for match in results.matches` loop of `search_similar`
(pinecone_client.py lines 121-135).  Every match is first appended to
`all_results`; it is appended to `processed_results` when its score meets
the threshold; the loop breaks as soon as
`len(processed_results) >= top_k` — the break test runs after the append,
so the breaking match is already in both accumulators.  Returns the final
`(processed_results, all_results)` pair. -/
def processMatches (threshold : ℚ) (top_k : ℕ) :
    List Match → List Match → List Match → List Match × List Match
  | [], processed, all => (processed, all)
  | m :: rest, processed, all =>
    let all2 := all ++ [m]
    let processed2 := if threshold ≤ m.score then processed ++ [m] else processed
    if top_k ≤ processed2.length then (processed2, all2)
    else processMatches threshold top_k rest processed2 all2

/-- The post-processing of `search_similar` applied to the match list the
backend returned (pinecone_client.py lines 117-147): threshold loop,
fallback to `all_results[:top_k]` when the threshold filtered everything
out while matches exist, then sort descending by score and truncate to
`top_k`. -/
def search_similar_core (fetched : List Match) (top_k : ℕ) (threshold : ℚ) : List Match :=
  let pa := processMatches threshold top_k fetched [] []
  let processed :=
    if pa.1 = [] ∧ pa.2 ≠ [] then pa.2.take top_k else pa.1
  (List.insertionSort scoreGE processed).take top_k

/-- Python `PineconeClient.search_similar` (pinecone_client.py lines 97-151).
The backend call `self.index.query(...)` is the oracle `index_query`,
invoked with the enlarged candidate count `min(top_k * 2, 100)`; any
exception it raises is caught by the surrounding `except`, which returns
the empty list. -/
def search_similar (index_query : ℕ → Except String (List Match))
    (top_k : ℕ) (threshold : ℚ) : List Match :=
  match index_query (min (top_k * 2) 100) with
  | Except.error _ => []
  | Except.ok fetched => search_similar_core fetched top_k threshold

example :
    search_similar_core
      [⟨"a", 1, ⟨some ("a.jpg")⟩⟩, ⟨"b", 9, ⟨some ("b.jpg")⟩⟩] 2 7
      = [⟨"b", 9, ⟨some ("b.jpg")⟩⟩] := by decide

example :
    search_similar_core
      [⟨"a", 1, ⟨some ("a.jpg")⟩⟩, ⟨"b", 2, ⟨some ("b.jpg")⟩⟩] 1 7
      = [⟨"a", 1, ⟨some ("a.jpg")⟩⟩] := by decide

/-! ### enhanced_search.py -/

/-- A Supabase `nail_art_metadata` row as consumed by the enrichment step:
the four display columns, each possibly absent. -/
structure DisplayRecord where
  public_url : Option String
  artist : Option String
  style : Option String
  colors : Option String

/-- One entry of `enhanced_results` (enhanced_search.py lines 182-191):
the candidate enriched with its three scores; the display fields are
added only by the later enrichment step and default to absent. -/
structure EnhancedResult where
  id : String
  metadata : MatchMeta
  vector_similarity : ℚ
  color_similarity : ℝ
  final_score : ℝ
  image_url : Option String := none
  vendor_name : Option String := none
  style : Option String := none
  colors : Option String := none

/-- The value `enhanced_similarity_search` returns (stats and timing are
wall-clock data and are not modelled): the result list, the `error` key
(present exactly on the failure path) and the `message` key. -/
structure SearchResponse where
  results : List EnhancedResult
  error : Option String
  message : String

/-- External collaborators of the pipeline, passed as oracles: image
decoding (`extract_lab_histogram` body behind cv2/PIL), the CLIP model,
the `json` library, the Pinecone SDK and the Supabase store. -/
structure PipelineEnv where
  extract_lab_histogram : List ℕ → ℤ → Option (List ℚ)
  get_clip_embedding : List ℕ → Option (List ℚ)
  jsonDumps : List ℚ → String
  jsonLoads : String → Option (List ℚ)
  pinecone_connect : String → Except String Unit
  index_query : List ℚ → ℕ → Except String (List Match)
  supabase_env : Option (String × String)
  create_supabase_client : String → String → Except String Unit
  histogram_rows : List String → Except String (List (String × String))
  metadata_rows : List String → Except String (List (String × DisplayRecord))

/-- Python `PineconeClient.__init__` (pinecone_client.py lines 21-29) declares
`api_key` as a required positional parameter, so a call that omits it
raises `TypeError` before the constructor body (and `_connect`) can run;
with a key supplied, `_connect` contacts the backend and may raise. -/
def pineconeClientInit (env : PipelineEnv) (api_key : Option String) : Except String Unit :=
  match api_key with
  | none =>
      Except.error ("TypeError: PineconeClient.__init__ missing 1 required positional argument: api_key")
  | some key => env.pinecone_connect key

/-- Python `fetch_histograms_from_supabase` (enhanced_search.py lines 19-49):
build a filename-to-histogram dictionary from the queried rows, keeping
only rows whose filename and histogram are both truthy; later rows with
the same filename overwrite earlier ones.  A query failure is caught and
yields the empty dictionary. -/
def fetch_histograms_from_supabase (rows : Except String (List (String × String))) :
    String → Option String :=
  match rows with
  | Except.error _ => fun _ => none
  | Except.ok rs => fun filename =>
      if filename = "" then none
      else ((rs.filter (fun r => r.1 == filename && r.2 != "")).getLast?).map (fun r => r.2)

/-- Python `calculate_weighted_similarity` (enhanced_search.py lines 51-68):
`vector_weight * vector_score + color_weight * color_score`. -/
noncomputable def calculate_weighted_similarity (vector_score color_score : ℝ)
    (config : SearchConfig) : ℝ :=
  (config.vector_weight : ℝ) * vector_score + (config.color_weight : ℝ) * color_score

/-- The body of the reranking loop (enhanced_search.py lines 162-192):
for one vector-stage candidate, look its filename up in the fetched
histogram dictionary, compute its color similarity (or 0.0 when the
histogram is absent), and fuse the scores. -/
noncomputable def enhanceResult (config : SearchConfig) (loads : String → Option (List ℚ))
    (query_histogram_json : String) (histogram_map : String → Option String)
    (r : Match) : EnhancedResult :=
  let filename := r.metadata.filename.getD ("")
  let color_score : ℝ :=
    match histogram_map filename with
    | some hist_json =>
        calculate_color_similarity loads query_histogram_json hist_json
          config.bhattacharyya_a config.bhattacharyya_b
    | none => 0
  { id := r.id
    metadata := r.metadata
    vector_similarity := r.score
    color_similarity := color_score
    final_score := calculate_weighted_similarity (r.score : ℝ) color_score config }

/-- Descending ordering by fused score used by
`enhanced_results.sort(key=lambda x: x["final_score"], reverse=True)`. -/
def finalGE (a b : EnhancedResult) : Prop := b.final_score ≤ a.final_score

noncomputable instance : DecidableRel finalGE :=
  fun a b => inferInstanceAs (Decidable (b.final_score ≤ a.final_score))

instance : IsTotal EnhancedResult finalGE := ⟨fun a b => le_total b.final_score a.final_score⟩

instance : IsTrans EnhancedResult finalGE := ⟨fun _ _ _ h1 h2 => le_trans h2 h1⟩

/-- The enrichment step for one surviving candidate (enhanced_search.py
lines 219-226): when the filename has a metadata row, fill the display
fields from it with the dictionary defaults; otherwise leave the
candidate untouched. -/
def enrichResult (metadata_map : String → Option DisplayRecord) (r : EnhancedResult) :
    EnhancedResult :=
  let filename := r.metadata.filename.getD ("")
  match metadata_map filename with
  | some md =>
      { r with
        image_url := some (md.public_url.getD (""))
        vendor_name := some (md.artist.getD ("Unknown Artist"))
        style := some (md.style.getD ("Unknown"))
        colors := some (md.colors.getD ("Unknown")) }
  | none => r

/-- The `try` body of `enhanced_similarity_search` (enhanced_search.py
lines 91-237), with each raise modelled as `Except.error` carrying the
exception text.  Note that step 3 constructs `PineconeClient()` with no
argument (line 117), so `pineconeClientInit` receives `none`.  The
`top_k` counts reach list truncation only through the nonnegative range
(`Int.toNat`), matching their spec domain. -/
noncomputable def enhancedSearchBody (env : PipelineEnv) (config : SearchConfig)
    (image_bytes : List ℕ) : Except String SearchResponse := do
  -- Step 1: query histogram
  let query_histogram ←
    match env.extract_lab_histogram image_bytes config.histogram_bins with
    | none => Except.error ("Failed to extract histogram from query image")
    | some h => Except.ok h
  let query_histogram_json := histogram_to_json env.jsonDumps query_histogram
  -- Step 2: query embedding
  let query_embedding ←
    match env.get_clip_embedding image_bytes with
    | none => Except.error ("Failed to generate CLIP embedding")
    | some e => Except.ok e
  -- Step 3: vector search; the client is constructed without an api_key
  let _ ← pineconeClientInit env none
  let vector_results :=
    search_similar (env.index_query query_embedding) config.vector_top_k.toNat
      config.similarity_threshold
  if vector_results = [] then
    Except.ok { results := [], error := none, message := ("No similar images found") }
  else do
    -- Step 4: fetch stored histograms for the candidates
    let filenames :=
      (vector_results.map (fun r => r.metadata.filename.getD (""))).filter (fun f => f != "")
    match env.supabase_env with
    | none =>
        Except.error ("SUPABASE_URL and SUPABASE_ANON_KEY environment variables are required")
    | some (url, key) => do
      let _ ← env.create_supabase_client url key
      let histogram_map := fetch_histograms_from_supabase (env.histogram_rows filenames)
      -- Step 5: rerank by fused score and truncate
      let enhanced_results :=
        vector_results.map (enhanceResult config env.jsonLoads query_histogram_json histogram_map)
      let sorted_results := List.insertionSort finalGE enhanced_results
      let final_results := sorted_results.take config.final_top_k.toNat
      -- Step 6: enrich with display metadata
      let final_filenames := final_results.map (fun r => r.metadata.filename.getD (""))
      match env.metadata_rows final_filenames with
      | Except.error e => Except.error e
      | Except.ok rows =>
        let metadata_map :=
          fun f => ((rows.filter (fun r => r.1 == f)).getLast?).map (fun r => r.2)
        let enriched := final_results.map (enrichResult metadata_map)
        Except.ok
          { results := enriched
            error := none
            message := ("Found " ++ toString enriched.length ++ " enhanced matches") }

/-- Python `enhanced_similarity_search` (enhanced_search.py lines 70-247): the
body runs under `try`; any exception is caught and turned into the
failure dictionary with an empty result list, an `error` key holding the
exception text and the message `Search failed`. -/
noncomputable def enhanced_similarity_search (env : PipelineEnv) (config : SearchConfig)
    (image_bytes : List ℕ) : SearchResponse :=
  match enhancedSearchBody env config image_bytes with
  | Except.ok resp => resp
  | Except.error e => { results := [], error := some e, message := ("Search failed") }

/-- A concrete pipeline environment whose image-decoding stage rejects
every input, used to instantiate the pipeline at a closed input. -/
def envStub : PipelineEnv where
  extract_lab_histogram := fun _ _ => none
  get_clip_embedding := fun _ => none
  jsonDumps := fun _ => "[]"
  jsonLoads := fun _ => none
  pinecone_connect := fun _ => Except.ok ()
  index_query := fun _ _ => Except.ok []
  supabase_env := none
  create_supabase_client := fun _ _ => Except.ok ()
  histogram_rows := fun _ => Except.ok []
  metadata_rows := fun _ => Except.ok []

/-! ### Theorems -/

/-- Every run of the pipeline body ends in an exception: the three
stages that precede the vector search can each raise, and when both
succeed the `PineconeClient()` construction raises `TypeError` because
`api_key` is required, so no execution gets past line 117. -/
theorem enhancedSearchBody_isError (env : PipelineEnv) (config : SearchConfig)
    (image_bytes : List ℕ) :
    ∃ e, enhancedSearchBody env config image_bytes = Except.error e := by
  unfold enhancedSearchBody
  cases henv : env.extract_lab_histogram image_bytes config.histogram_bins with
  | none => exact ⟨_, rfl⟩
  | some qh =>
    cases hemb : env.get_clip_embedding image_bytes with
    | none => exact ⟨_, rfl⟩
    | some emb => exact ⟨_, rfl⟩

/-- C1: for every input image bytes and every configuration,
`enhanced_similarity_search` returns the failure dictionary — `results`
is the empty list and the `error` key is present — rather than a ranked
result list, because its vector-search stage constructs
`PineconeClient()` without the `api_key` argument that
`PineconeClient.__init__` requires, so that call raises and is absorbed
by the outer exception handler (as is any earlier stage failure). -/
theorem c1_pipeline_always_returns_failure (env : PipelineEnv) (config : SearchConfig)
    (image_bytes : List ℕ) :
    (enhanced_similarity_search env config image_bytes).results = [] ∧
    (enhanced_similarity_search env config image_bytes).error.isSome = true := by
  obtain ⟨e, he⟩ := enhancedSearchBody_isError env config image_bytes
  simp [enhanced_similarity_search, he]

/-- C7: for every backend reply, every `topK` and every threshold, the
list `search_similar` returns is sorted in descending order of score and
has length at most `topK`: the final sort and slice enforce both, and the
exception path returns the empty list. -/
theorem c7_search_similar_sorted_and_bounded
    (index_query : ℕ → Except String (List Match)) (top_k : ℕ) (threshold : ℚ) :
    List.Sorted scoreGE (search_similar index_query top_k threshold) ∧
    (search_similar index_query top_k threshold).length ≤ top_k := by
  unfold search_similar
  cases index_query (min (top_k * 2) 100) with
  | error e => simp
  | ok fetched =>
    unfold search_similar_core
    constructor
    · exact List.Pairwise.sublist (List.take_sublist _ _) (List.sorted_insertionSort scoreGE _)
    · exact List.length_take_le _ _

/-- When every fetched match scores below the threshold and `top_k` is
positive, the filtering loop keeps `processed_results` empty, never
breaks, and accumulates every match into `all_results`. -/
theorem processMatches_all_below (threshold : ℚ) (top_k : ℕ) (hk : 1 ≤ top_k) :
    ∀ ms acc : List Match, (∀ m ∈ ms, m.score < threshold) →
      processMatches threshold top_k ms [] acc = ([], acc ++ ms) := by
  intro ms
  induction ms with
  | nil => intro acc _; simp [processMatches]
  | cons m rest ih =>
    intro acc hall
    have hm : ¬ threshold ≤ m.score := not_le.mpr (hall m (by simp))
    have hbreak : ¬ top_k ≤ ([] : List Match).length := by simp; omega
    have hrest : ∀ x ∈ rest, x.score < threshold := fun x hx => hall x (by simp [hx])
    calc processMatches threshold top_k (m :: rest) [] acc
        = processMatches threshold top_k rest [] (acc ++ [m]) := by
          simp [processMatches, hm, hbreak]
          intro h0
          exact absurd h0 (by omega)
      _ = ([], (acc ++ [m]) ++ rest) := ih (acc ++ [m]) hrest
      _ = ([], acc ++ m :: rest) := by simp

/-- C3: when the index query succeeds with at least one candidate and the
similarity threshold would exclude every fetched candidate, the fallback
branch discards the threshold and `search_similar` returns a non-empty
list of best-available candidates (drawn from the fetched ones and
truncated to `topK`) instead of an empty list. -/
theorem c3_threshold_fallback_nonempty
    (index_query : ℕ → Except String (List Match)) (fetched : List Match)
    (top_k : ℕ) (threshold : ℚ)
    (hq : index_query (min (top_k * 2) 100) = Except.ok fetched)
    (hne : fetched ≠ []) (hk : 1 ≤ top_k)
    (hall : ∀ m ∈ fetched, m.score < threshold) :
    search_similar index_query top_k threshold ≠ [] ∧
    ∀ r ∈ search_similar index_query top_k threshold, r ∈ fetched := by
  unfold search_similar
  rw [hq]
  simp only [search_similar_core]
  rw [processMatches_all_below threshold top_k hk fetched [] hall]
  simp only [List.nil_append]
  rw [if_pos (by simp [hne])]
  have hlen : 0 < fetched.length := List.length_pos.mpr hne
  constructor
  · apply List.length_pos.mp
    simp only [List.length_take, List.length_insertionSort]
    omega
  · intro r hr
    have h1 : r ∈ List.insertionSort scoreGE (fetched.take top_k) :=
      List.mem_of_mem_take hr
    have h2 : r ∈ fetched.take top_k := (List.mem_insertionSort scoreGE).mp h1
    exact List.mem_of_mem_take h2

/-- C3 witness: a single fetched candidate scoring 1 against threshold 7
with `topK = 20` is still returned by the fallback. -/
theorem c3_threshold_fallback_nonempty_witness :
    (fun _ : ℕ => (Except.ok [(⟨"a", 1, ⟨some ("a.jpg")⟩⟩ : Match)] : Except String (List Match)))
        (min (20 * 2) 100) = Except.ok [(⟨"a", 1, ⟨some ("a.jpg")⟩⟩ : Match)] ∧
    ([(⟨"a", 1, ⟨some ("a.jpg")⟩⟩ : Match)] : List Match) ≠ [] ∧ 1 ≤ 20 ∧
    (∀ m ∈ [(⟨"a", 1, ⟨some ("a.jpg")⟩⟩ : Match)], m.score < 7) ∧
    (search_similar (fun _ => Except.ok [(⟨"a", 1, ⟨some ("a.jpg")⟩⟩ : Match)]) 20 7 ≠ [] ∧
      ∀ r ∈ search_similar (fun _ => Except.ok [(⟨"a", 1, ⟨some ("a.jpg")⟩⟩ : Match)]) 20 7,
        r ∈ [(⟨"a", 1, ⟨some ("a.jpg")⟩⟩ : Match)]) :=
  ⟨rfl, by decide, by decide, by decide,
    c3_threshold_fallback_nonempty _ _ 20 7 rfl (by decide) (by decide) (by decide)⟩

/-- C2 counterexample: for the concrete shape-mismatched pair `[1]` and
`[1/2, 1/2]`, `calculate_bhattacharyya_distance` returns the plain float
1.0 — the `ValueError` raised by the shape check is caught by the
same function and converted into the numeric-failure degradation value,
so no `IncompatibleHistograms` error reaches the caller. -/
theorem c2_counterexample_mismatch_returns_one :
    calculate_bhattacharyya_distance [(1 : ℝ)] [1 / 2, 1 / 2] = 1 := by
  norm_num [calculate_bhattacharyya_distance, bhattacharyyaBody]

/-- C2 amended: for every pair of histograms whose shapes differ,
`calculate_bhattacharyya_distance` returns the degradation value 1.0 to
its caller — identically to any other numeric failure — because the
shape-mismatch `ValueError` is raised inside the function's own
`try/except` block; no exception propagates. -/
theorem c2_amended_mismatch_degrades_to_one (hist1 hist2 : List ℝ)
    (h : hist1.length ≠ hist2.length) :
    calculate_bhattacharyya_distance hist1 hist2 = 1 := by
  unfold calculate_bhattacharyya_distance bhattacharyyaBody
  simp [h]

/-- C2 amended witness: the shape-mismatched pair `[1, 2]` and `[3]`. -/
theorem c2_amended_mismatch_witness :
    [(1 : ℝ), 2].length ≠ [(3 : ℝ)].length ∧
    calculate_bhattacharyya_distance [(1 : ℝ), 2] [(3 : ℝ)] = 1 :=
  ⟨by decide, c2_amended_mismatch_degrades_to_one [(1 : ℝ), 2] [(3 : ℝ)] (by decide)⟩

/-- C4: for every pair of equal-shape histograms,
`calculate_bhattacharyya_distance` returns
`min(-ln(clamp(Σ√(h1ᵢ·h2ᵢ), 1e-10, 1)) / -ln(1e-10), 1.0)`, and this
value lies in the closed interval `[0, 1]`. -/
theorem c4_distance_formula_and_range (hist1 hist2 : List ℝ)
    (hlen : hist1.length = hist2.length) :
    calculate_bhattacharyya_distance hist1 hist2 =
      min (-Real.log (max (1 / 10 ^ 10)
            (min ((List.zipWith (fun a b => Real.sqrt (a * b)) hist1 hist2).sum) 1)) /
          -Real.log ((1 : ℝ) / 10 ^ 10)) 1 ∧
    0 ≤ calculate_bhattacharyya_distance hist1 hist2 ∧
    calculate_bhattacharyya_distance hist1 hist2 ≤ 1 := by
  have hform : calculate_bhattacharyya_distance hist1 hist2 =
      min (-Real.log (max (1 / 10 ^ 10)
            (min ((List.zipWith (fun a b => Real.sqrt (a * b)) hist1 hist2).sum) 1)) /
          -Real.log ((1 : ℝ) / 10 ^ 10)) 1 := by
    unfold calculate_bhattacharyya_distance bhattacharyyaBody
    simp [hlen]
  refine ⟨hform, ?_, ?_⟩
  · rw [hform]
    set c : ℝ :=
      max (1 / 10 ^ 10) (min ((List.zipWith (fun a b => Real.sqrt (a * b)) hist1 hist2).sum) 1)
      with hc
    have hlo : (0 : ℝ) < 1 / 10 ^ 10 := by norm_num
    have hcpos : 0 < c := lt_of_lt_of_le hlo (le_max_left _ _)
    have hc1 : c ≤ 1 := max_le (by norm_num) (min_le_right _ _)
    have hnum : 0 ≤ -Real.log c := by
      have := Real.log_nonpos (le_of_lt hcpos) hc1
      linarith
    have hden : 0 < -Real.log ((1 : ℝ) / 10 ^ 10) := by
      have := Real.log_neg hlo (by norm_num : (1 : ℝ) / 10 ^ 10 < 1)
      linarith
    exact le_min (div_nonneg hnum (le_of_lt hden)) zero_le_one
  · rw [hform]
    exact min_le_right _ _

/-- C4 witness: the equal-shape pair `[1]` and `[1]`. -/
theorem c4_distance_formula_and_range_witness :
    calculate_bhattacharyya_distance [(1 : ℝ)] [(1 : ℝ)] =
      min (-Real.log (max (1 / 10 ^ 10)
            (min ((List.zipWith (fun a b => Real.sqrt (a * b)) [(1 : ℝ)] [(1 : ℝ)]).sum) 1)) /
          -Real.log ((1 : ℝ) / 10 ^ 10)) 1 ∧
    0 ≤ calculate_bhattacharyya_distance [(1 : ℝ)] [(1 : ℝ)] ∧
    calculate_bhattacharyya_distance [(1 : ℝ)] [(1 : ℝ)] ≤ 1 :=
  c4_distance_formula_and_range [(1 : ℝ)] [(1 : ℝ)] rfl

/-- C8: `bhattacharyya_to_similarity` computes
`sigmoid(a * (1 - distance) + b)`, and for the default parameters
`a = 6.0` and `b = -3.0` it is strictly monotonically decreasing in the
distance: `d1 < d2` implies `toSimilarity(d1) > toSimilarity(d2)`. -/
theorem c8_similarity_strictly_decreasing (d1 d2 : ℝ) (h : d1 < d2) :
    (∀ a b : ℝ, bhattacharyya_to_similarity d1 a b =
      1 / (1 + Real.exp (-(a * (1 - d1) + b)))) ∧
    bhattacharyya_to_similarity d2 6 (-3) < bhattacharyya_to_similarity d1 6 (-3) := by
  refine ⟨fun a b => rfl, ?_⟩
  unfold bhattacharyya_to_similarity
  have harg : -(6 * (1 - d1) + -3) < -(6 * (1 - d2) + -3) := by linarith
  have hexp : Real.exp (-(6 * (1 - d1) + -3)) < Real.exp (-(6 * (1 - d2) + -3)) :=
    Real.exp_lt_exp.mpr harg
  have hpos : 0 < 1 + Real.exp (-(6 * (1 - d1) + -3)) := by positivity
  exact one_div_lt_one_div_of_lt hpos (by linarith)

/-- C8 witness: the concrete distances 0 and 1. -/
theorem c8_similarity_strictly_decreasing_witness :
    (∀ a b : ℝ, bhattacharyya_to_similarity 0 a b =
      1 / (1 + Real.exp (-(a * (1 - 0) + b)))) ∧
    bhattacharyya_to_similarity 1 6 (-3) < bhattacharyya_to_similarity 0 6 (-3) :=
  c8_similarity_strictly_decreasing 0 1 (by norm_num)

/-- Construction of a `SearchConfig` succeeds exactly when
`final_top_k ≤ vector_top_k` and `histogram_bins > 0`; the weight fields
never influence success. -/
theorem postInit_isOk_iff (c : SearchConfig) :
    (c.postInit).2.isOk = true ↔
      (c.final_top_k ≤ c.vector_top_k ∧ 0 < c.histogram_bins) := by
  unfold SearchConfig.postInit
  by_cases h1 : c.vector_top_k < c.final_top_k
  · simp [h1, Except.isOk, Except.toBool]
  · by_cases h2 : c.histogram_bins ≤ 0
    · simp [h1, h2, Except.isOk, Except.toBool]
    · simp [h1, h2, Except.isOk, Except.toBool]
      omega

/-- C6: `SearchConfig` construction fails with `InvalidConfig` exactly
when `finalTopK > vectorTopK` or `histogramBins ≤ 0` — in particular
`SearchConfig(vectorTopK=5, finalTopK=10)` raises at construction — while
a weight pair whose sum differs from 1.0 only produces a warning and
never causes construction to fail. -/
theorem c6_config_validation (c d : SearchConfig)
    (hw : d.vector_weight + d.color_weight ≠ 1) :
    ((c.postInit).2.isOk = true ↔
      (c.final_top_k ≤ c.vector_top_k ∧ 0 < c.histogram_bins)) ∧
    (SearchConfig.postInit { vector_top_k := 5, final_top_k := 10 }).2.isOk = false ∧
    (d.postInit).1 = [("Weights do not sum to 1.0")] ∧
    ((d.postInit).2.isOk = true ↔
      (d.final_top_k ≤ d.vector_top_k ∧ 0 < d.histogram_bins)) := by
  refine ⟨postInit_isOk_iff c, by decide, ?_, postInit_isOk_iff d⟩
  unfold SearchConfig.postInit
  simp [hw, apply_ite Prod.fst]

/-- C6 witness: the default configuration for the equivalence, and a
configuration with weights 0.7 and 0.7 (summing to 1.4) for the
warn-but-construct clause. -/
theorem c6_config_validation_witness :
    (({ vector_weight := 7 / 10, color_weight := 7 / 10 } : SearchConfig).vector_weight +
        ({ vector_weight := 7 / 10, color_weight := 7 / 10 } : SearchConfig).color_weight ≠ 1) ∧
    ((((({} : SearchConfig)).postInit).2.isOk = true ↔
        ((({} : SearchConfig)).final_top_k ≤ (({} : SearchConfig)).vector_top_k ∧
          0 < (({} : SearchConfig)).histogram_bins)) ∧
      (SearchConfig.postInit { vector_top_k := 5, final_top_k := 10 }).2.isOk = false ∧
      ((({ vector_weight := 7 / 10, color_weight := 7 / 10 } : SearchConfig)).postInit).1 =
        [("Weights do not sum to 1.0")] ∧
      (((({ vector_weight := 7 / 10, color_weight := 7 / 10 } : SearchConfig)).postInit).2.isOk
          = true ↔
        (({ vector_weight := 7 / 10, color_weight := 7 / 10 } : SearchConfig).final_top_k ≤
            ({ vector_weight := 7 / 10, color_weight := 7 / 10 } : SearchConfig).vector_top_k ∧
          0 < ({ vector_weight := 7 / 10, color_weight := 7 / 10 } : SearchConfig).histogram_bins))) :=
  ⟨by norm_num,
    c6_config_validation {} { vector_weight := 7 / 10, color_weight := 7 / 10 } (by norm_num)⟩

/-- C5: a vector-stage candidate whose stored histogram cannot be fetched
(its filename is absent from the histogram dictionary) is not dropped by
the reranking loop: it gets `colorScore = 0.0`, its fused score is
exactly `vectorWeight · vectorScore`, and it still appears in the
reranked (sorted, untruncated) list. -/
theorem c5_missing_histogram_candidate_kept (config : SearchConfig)
    (loads : String → Option (List ℚ)) (query_histogram_json : String)
    (histogram_map : String → Option String) (vector_results : List Match) (r : Match)
    (hr : r ∈ vector_results)
    (hmiss : histogram_map (r.metadata.filename.getD ("")) = none) :
    (enhanceResult config loads query_histogram_json histogram_map r).color_similarity = 0 ∧
    (enhanceResult config loads query_histogram_json histogram_map r).final_score =
      (config.vector_weight : ℝ) * (r.score : ℝ) ∧
    enhanceResult config loads query_histogram_json histogram_map r ∈
      List.insertionSort finalGE
        (vector_results.map (enhanceResult config loads query_histogram_json histogram_map)) := by
  refine ⟨?_, ?_, ?_⟩
  · simp [enhanceResult, hmiss]
  · simp [enhanceResult, hmiss, calculate_weighted_similarity]
  · exact (List.mem_insertionSort finalGE).mpr (List.mem_map_of_mem _ hr)

/-- C5 witness: one candidate with score 1 and a histogram dictionary
that holds no entry at all. -/
theorem c5_missing_histogram_candidate_kept_witness :
    (⟨"a", 1, ⟨some ("a.jpg")⟩⟩ : Match) ∈ [(⟨"a", 1, ⟨some ("a.jpg")⟩⟩ : Match)] ∧
    (fun _ : String => (none : Option String))
        ((⟨"a", 1, ⟨some ("a.jpg")⟩⟩ : Match).metadata.filename.getD ("")) = none ∧
    ((enhanceResult {} (fun _ => none) "" (fun _ => none)
        (⟨"a", 1, ⟨some ("a.jpg")⟩⟩ : Match)).color_similarity = 0 ∧
      (enhanceResult {} (fun _ => none) "" (fun _ => none)
          (⟨"a", 1, ⟨some ("a.jpg")⟩⟩ : Match)).final_score =
        ((({} : SearchConfig).vector_weight : ℝ) * (((⟨"a", 1, ⟨some ("a.jpg")⟩⟩ : Match)).score : ℝ)) ∧
      enhanceResult {} (fun _ => none) "" (fun _ => none) (⟨"a", 1, ⟨some ("a.jpg")⟩⟩ : Match) ∈
        List.insertionSort finalGE
          ([(⟨"a", 1, ⟨some ("a.jpg")⟩⟩ : Match)].map
            (enhanceResult {} (fun _ => none) "" (fun _ => none)))) :=
  ⟨List.mem_singleton.mpr rfl, rfl,
    c5_missing_histogram_candidate_kept {} (fun _ => none) "" (fun _ => none)
      [(⟨"a", 1, ⟨some ("a.jpg")⟩⟩ : Match)] (⟨"a", 1, ⟨some ("a.jpg")⟩⟩ : Match)
      (List.mem_singleton.mpr rfl) rfl⟩

/-- C9 counterexample: a backend failure at query time (the
`IndexUnavailable` case) is absorbed by the `except` handler of
`search_similar`, which returns the empty list — the very value an empty
index produces — so the vector stage hands the pipeline an outcome
indistinguishable from the empty-result success, instead of surfacing a
terminal failure. -/
theorem c9_counterexample_index_failure_swallowed :
    search_similar (fun _ => Except.error ("IndexUnavailable: backend connectivity")) 20 (7 / 10)
      = [] ∧
    search_similar (fun _ => Except.error ("IndexUnavailable: backend connectivity")) 20 (7 / 10)
      = search_similar (fun _ => Except.ok []) 20 (7 / 10) := by
  constructor
  · rfl
  · rfl

/-- C9 amended: the user-caused terminal failures do surface — when image
decoding or embedding generation fails, the pipeline returns the failure
response with an `error` key and the `Search failed` message — but an
index-backend failure at query time does not: `search_similar` absorbs it
into the empty list, identical to the reply of an empty index, so it
would flow into the empty-result success branch rather than surface
distinctly (and in the composed pipeline every request already fails at
client construction). -/
theorem c9_amended_terminal_failure_propagation (env : PipelineEnv) (config : SearchConfig)
    (image_bytes : List ℕ) (e : String) (top_k : ℕ) (threshold : ℚ)
    (hfail : env.extract_lab_histogram image_bytes config.histogram_bins = none ∨
             env.get_clip_embedding image_bytes = none) :
    (enhanced_similarity_search env config image_bytes).error.isSome = true ∧
    (enhanced_similarity_search env config image_bytes).message = "Search failed" ∧
    search_similar (fun _ => Except.error e) top_k threshold =
      search_similar (fun _ => Except.ok []) top_k threshold := by
  obtain ⟨msg, hbody⟩ := enhancedSearchBody_isError env config image_bytes
  refine ⟨?_, ?_, ?_⟩
  · simp [enhanced_similarity_search, hbody]
  · simp [enhanced_similarity_search, hbody]
  · unfold search_similar
    simp [search_similar_core, processMatches]

/-- C9 amended witness: the stub environment whose decoder rejects the
input image. -/
theorem c9_amended_terminal_failure_propagation_witness :
    (envStub.extract_lab_histogram [] (({} : SearchConfig)).histogram_bins = none ∨
      envStub.get_clip_embedding [] = none) ∧
    ((enhanced_similarity_search envStub {} []).error.isSome = true ∧
      (enhanced_similarity_search envStub {} []).message = "Search failed" ∧
      search_similar (fun _ => Except.error ("IndexUnavailable")) 20 (7 / 10) =
        search_similar (fun _ => Except.ok []) 20 (7 / 10)) :=
  ⟨Or.inl rfl,
    c9_amended_terminal_failure_propagation envStub {} [] "IndexUnavailable" 20 (7 / 10)
      (Or.inl rfl)⟩

/-- A concrete stand-in for `json.dumps` on number lists, agreeing with
the library on the inputs where it is used below: the empty list
serializes to the two-character empty-array string, and a nonempty list
serializes to a longer bracketed string. -/
def dumpsStub (h : List ℚ) : String := if h.isEmpty then ("[]") else ("[1.0]")

/-- A concrete stand-in for `json.loads` composed with the float32 cast,
inverting `dumpsStub` on the nonempty input used below. -/
def loadsStub (s : String) : Option (List ℚ) := if s = "[1.0]" then (some [1]) else none

/-- C10 counterexample: the zero-length histogram does not survive the
round trip — `histogram_to_json` serializes it to the empty-array string,
which `histogram_from_json` maps to `None` before parsing, even with a
loader that would happily return the empty histogram. -/
theorem c10_counterexample_empty_histogram_roundtrip :
    histogram_from_json (fun _ => some []) (histogram_to_json dumpsStub []) = none := by
  decide

/-- C10 amended: for every nonempty histogram whose serialized form the
json library parses back (and which, like every `json.dumps` output for a
nonempty list, is neither the empty string nor the empty-array string),
deserializing the serialized form reproduces the original exactly; the
zero-length histogram instead deserializes to `None`. -/
theorem c10_amended_roundtrip_nonempty (dumps : List ℚ → String)
    (loads : String → Option (List ℚ)) (h : List ℚ)
    (hinv : loads (dumps h) = some h)
    (hs1 : dumps h ≠ "") (hs2 : dumps h ≠ "[]") :
    histogram_from_json loads (histogram_to_json dumps h) = some h := by
  simp [histogram_from_json, histogram_to_json, hs1, hs2, hinv]

/-- C10 amended witness: the one-entry histogram `[1]` under the concrete
serializer stand-ins. -/
theorem c10_amended_roundtrip_nonempty_witness :
    loadsStub (dumpsStub [1]) = some [1] ∧ dumpsStub [1] ≠ "" ∧ dumpsStub [1] ≠ "[]" ∧
    histogram_from_json loadsStub (histogram_to_json dumpsStub [1]) = some [1] :=
  ⟨by decide, by decide, by decide,
    c10_amended_roundtrip_nonempty dumpsStub loadsStub [1] (by decide) (by decide) (by decide)⟩
